import Mathlib

/-!
# nebula-common: expression placeholder, comprehension nodes and response records

A shallow embedding of

* `src/common/expression/LabelAttributeExpression.h`
* `src/common/expression/ListComprehensionExpression.h`
* `src/common/expression/PredicateExpression.h`
* `src/common/expression/ReduceExpression.h`
* `src/common/graph/Response.h`

Conventions of the embedding:

* `std::string` is `String`; `int64_t` and `int32_t` are `Int` (no arithmetic is
  performed on them in these files, so no wrap-around can occur);
* a `std::unique_ptr<T>` member is `Option T`: `none` is `nullptr`, `some v` owns `v`;
* a raw pointer obtained by `get()` is a `Pointer T`, which keeps the address of the pointee, so
  that comparing two pointers is distinct from comparing what they point to;
* `std::vector<T>` is `List T`; `std::unordered_map<K, V>` is a `List (K × V)` of entries;
* a call that need not return normally yields an `Outcome`.
-/

namespace nebula

/-! ## How a call can end -/

/-- The ways a C++ call can end. -/
inductive Outcome (α : Type) where
  /-- The call returns normally with a value. -/
  | returned (v : α)
  /-- The call leaves through a C++ exception: a recoverable, typed error. -/
  | thrown (what : String)
  /-- The call runs `LOG(FATAL) << msg`: the message is logged and the process aborts. -/
  | fatal (msg : String)
  /-- The call dereferences a null pointer: undefined behaviour. -/
  | undefined
  deriving DecidableEq, Repr

/-! ## Expression kinds -/

/-- The kind tag of `Expression::Kind`. The four enumerators used by the headers in scope are
listed by name; `kOther n` stands for the n-th of the remaining enumerators, which are declared
in `Expression.h`. -/
inductive Kind where
  | kLabelAttribute
  | kListComprehension
  | kPredicate
  | kReduce
  | kOther (n : Nat)
  deriving DecidableEq, Repr

/-! ## LabelAttributeExpression.h -/

/-- The members of `LabelAttributeExpression`: `lhs_` and `rhs_`, two owning pointers to a
`LabelExpression` (type `L`). The kind tag is fixed to `kLabelAttribute` by the constructor. -/
structure LabelAttributeExpression (L : Type) where
  lhs_ : Option L
  rhs_ : Option L
  deriving DecidableEq, Repr

/-- An expression as seen through `const Expression&`: either a `LabelAttributeExpression`
(the only class whose constructor sets the tag `kLabelAttribute`) or a node of another
concrete class, of which only the kind tag is observed here. -/
inductive Expression (L : Type) where
  | labelAttribute (e : LabelAttributeExpression L)
  | node (k : Kind) (h : k ≠ Kind.kLabelAttribute)

/-- `Expression::kind()`. -/
def Expression.kind {L : Type} : Expression L → Kind
  | .labelAttribute _ => Kind.kLabelAttribute
  | .node k _ => k

namespace LabelAttributeExpression

variable {L : Type}

/-- The constructor `LabelAttributeExpression(lhs, rhs)`: `lhs_.reset(lhs); rhs_.reset(rhs);`.
Both parameters default to `nullptr` in the source, so `new none none` is the node built by
`LabelAttributeExpression()`. The constructor body has no failing path. -/
def new (lhs rhs : Option L) : Outcome (LabelAttributeExpression L) :=
  Outcome.returned { lhs_ := lhs, rhs_ := rhs }

/-- `kind()` of a `LabelAttributeExpression`: the tag given to the base class constructor. -/
def kind (_self : LabelAttributeExpression L) : Kind := Kind.kLabelAttribute

/-- `left()`: `lhs_.get()`. -/
def left (self : LabelAttributeExpression L) : Option L := self.lhs_

/-- `right()`: `rhs_.get()`. -/
def right (self : LabelAttributeExpression L) : Option L := self.rhs_

/-- `operator==(const Expression &rhs)`:

```
if (rhs.kind() != kind()) { return false; }
auto &expr = static_cast<const LabelAttributeExpression&>(rhs);
return *lhs_ == *expr.lhs_ && *rhs_ == *expr.rhs_;
```

`*p` on a null `unique_ptr` is undefined behaviour. `&&` evaluates its right operand only
when the left one is true. The comparison of two `LabelExpression`s is the `==` of `L`. -/
def operatorEq [BEq L] (self : LabelAttributeExpression L) (rhs : Expression L) :
    Outcome Bool :=
  if rhs.kind ≠ self.kind then Outcome.returned false
  else
    match rhs with
    | .node _ _ => Outcome.undefined
    | .labelAttribute expr =>
      match self.lhs_, expr.lhs_ with
      | some l, some l2 =>
        if l == l2 then
          match self.rhs_, expr.rhs_ with
          | some r, some r2 => Outcome.returned (r == r2)
          | _, _ => Outcome.undefined
        else Outcome.returned false
      | _, _ => Outcome.undefined

/-- `eval(ExpressionContext&)`: `LOG(FATAL) << "LabelAttributeExpression has to be rewritten";`. -/
def eval {Ctx Value : Type} (_self : LabelAttributeExpression L) (_ctx : Ctx) : Outcome Value :=
  Outcome.fatal "LabelAttributeExpression has to be rewritten"

/-- `writeTo(Encoder&)`: `LOG(FATAL) << "LabelAttributeExpression cannot be encoded";`. -/
def writeTo {Encoder : Type} (_self : LabelAttributeExpression L) (_encoder : Encoder) :
    Outcome Unit :=
  Outcome.fatal "LabelAttributeExpression cannot be encoded"

/-- `resetFrom(Decoder&)`: `LOG(FATAL) << "LabelAttributeExpression cannot be decoded";`. -/
def resetFrom {Decoder : Type} (_self : LabelAttributeExpression L) (_decoder : Decoder) :
    Outcome Unit :=
  Outcome.fatal "LabelAttributeExpression cannot be decoded"

end LabelAttributeExpression

/-! ## Values and evaluation contexts (consumed by the comprehension nodes) -/

/-- Modelled from the spec: the runtime value type `Value` of `common/datatypes/Value.h`, which
is not among the sources. The spec describes it as a tagged union that supports iteration in
native order, an emptiness test and a truthiness test. `empty` is the default-constructed
value. -/
inductive Value where
  | empty
  | null
  | bool (b : Bool)
  | int (i : Int)
  | str (s : String)
  | list (xs : List Value)
  deriving Repr

/-- Modelled from the spec: the truthiness test of the value contract; a value is true-like
when it is the boolean `true`. -/
def Value.isTrueLike : Value → Bool
  | .bool b => b
  | _ => false

/-- Modelled from the spec: the iterable view of a value (section 4.2 step 1). A list iterates
its elements in order, a null or absent result is an empty iterable, anything else is not
iterable. -/
def Value.asIterable : Value → Option (List Value)
  | .list xs => some xs
  | .null => some []
  | .empty => some []
  | _ => none

/-- Modelled from the spec: the emptiness test used by the `exists` form: the result is
non-null and non-empty. -/
def Value.isPresent : Value → Bool
  | .empty => false
  | .null => false
  | .list xs => !xs.isEmpty
  | .str s => !s.isEmpty
  | _ => true

/-- Modelled from the spec: the error taxonomy of section 7. -/
inductive EvaluationError where
  | constructionError (what : String)
  | unboundVariableError (name : String)
  | typeError (what : String)
  | unsupportedNodeError
  deriving DecidableEq, Repr

/-- Modelled from the spec: the evaluation context of section 6, a scope resolving names to
values. -/
structure ExpressionContext where
  vars : String → Option Value

/-- Modelled from the spec: `resolve(name)`, failing with `UnboundVariableError` when the name
is absent. -/
def ExpressionContext.resolve (ctx : ExpressionContext) (name : String) :
    Except EvaluationError Value :=
  match ctx.vars name with
  | some v => Except.ok v
  | none => Except.error (EvaluationError.unboundVariableError name)

/-- Modelled from the spec: `withBinding(name, value)`, a child scope in which `name` resolves
to `value` and every other name falls through to the parent; the parent is not changed. -/
def ExpressionContext.withBinding (ctx : ExpressionContext) (name : String) (value : Value) :
    ExpressionContext :=
  { vars := fun n => if n = name then some value else ctx.vars n }

/-! ## ListComprehensionExpression.h -/

/-- The members of `ListComprehensionExpression`; children are owning pointers to `Expression`
(type `E`). -/
structure ListComprehensionExpression (E : Type) where
  innerVar_ : String
  collection_ : Option E
  filter_ : Option E
  mapping_ : Option E
  originString_ : String
  result_ : Value

namespace ListComprehensionExpression

variable {E : Type}

/-- The constructor `ListComprehensionExpression(innerVar, collection, filter, mapping)`
(defaults `""`, `nullptr`, `nullptr`, `nullptr`). `originString_` and `result_` are
default-constructed. -/
def new (innerVar : String) (collection filter mapping : Option E) :
    Outcome (ListComprehensionExpression E) :=
  Outcome.returned
    { innerVar_ := innerVar, collection_ := collection, filter_ := filter, mapping_ := mapping,
      originString_ := "", result_ := Value.empty }

/-- `kind()`: the tag given to the base class constructor. -/
def kind (_self : ListComprehensionExpression E) : Kind := Kind.kListComprehension

/-- `innerVar()`. -/
def innerVar (self : ListComprehensionExpression E) : String := self.innerVar_

/-- `collection()`: `collection_.get()`. -/
def collection (self : ListComprehensionExpression E) : Option E := self.collection_

/-- `filter()`: `filter_.get()`. -/
def filter (self : ListComprehensionExpression E) : Option E := self.filter_

/-- `mapping()`: `mapping_.get()`. -/
def mapping (self : ListComprehensionExpression E) : Option E := self.mapping_

/-- `setInnerVar(name)`: `innerVar_ = name;`. -/
def setInnerVar (self : ListComprehensionExpression E) (name : String) :
    ListComprehensionExpression E :=
  { self with innerVar_ := name }

/-- `setCollection(expr)`: `collection_.reset(expr);`. -/
def setCollection (self : ListComprehensionExpression E) (expr : Option E) :
    ListComprehensionExpression E :=
  { self with collection_ := expr }

/-- `setFilter(expr)`: `filter_.reset(expr);`. -/
def setFilter (self : ListComprehensionExpression E) (expr : Option E) :
    ListComprehensionExpression E :=
  { self with filter_ := expr }

/-- `setMapping(expr)`: `mapping_.reset(expr);`. -/
def setMapping (self : ListComprehensionExpression E) (expr : Option E) :
    ListComprehensionExpression E :=
  { self with mapping_ := expr }

/-- `hasFilter()`: `filter_ != nullptr`. -/
def hasFilter (self : ListComprehensionExpression E) : Bool := self.filter_.isSome

/-- `hasMapping()`: `mapping_ != nullptr`. -/
def hasMapping (self : ListComprehensionExpression E) : Bool := self.mapping_.isSome

/-- `setOriginString(s)`: `originString_ = s;`. -/
def setOriginString (self : ListComprehensionExpression E) (s : String) :
    ListComprehensionExpression E :=
  { self with originString_ := s }

/-- `hasOriginString()`: `!originString_.empty()`. -/
def hasOriginString (self : ListComprehensionExpression E) : Bool :=
  !self.originString_.isEmpty

end ListComprehensionExpression

/-! ## PredicateExpression.h -/

/-- The members of `PredicateExpression`; children are owning pointers to `Expression`
(type `E`). -/
structure PredicateExpression (E : Type) where
  name_ : String
  innerVar_ : String
  collection_ : Option E
  filter_ : Option E
  originString_ : String
  result_ : Value

namespace PredicateExpression

variable {E : Type}

/-- The enumeration `PredicateExpression::Type`: `ALL = 0, ANY = 1, SINGLE = 2, NONE = 3`. -/
inductive QuantifierType where
  | ALL
  | ANY
  | SINGLE
  | NONE
  deriving DecidableEq, Repr

/-- Modelled from the spec: the entries of the static table `typeMap_`, which the header only
declares. The spec names the quantifiers `all`, `any`, `single` and `none`; `exists` is the
special form handled apart from the table. -/
def typeMap_ : List (String × QuantifierType) :=
  [("all", QuantifierType.ALL), ("any", QuantifierType.ANY),
   ("single", QuantifierType.SINGLE), ("none", QuantifierType.NONE)]

/-- Modelled from the spec: a name resolves to a known quantifier when it is a key of
`typeMap_` or the special form `exists`. -/
def isKnownName (name : String) : Bool :=
  (typeMap_.lookup name).isSome || name == "exists"

/-- The constructor `PredicateExpression(name, innerVar, collection, filter)` (defaults `""`,
`""`, `nullptr`, `nullptr`): the member initialiser list stores the four arguments, the body is
empty. `originString_` and `result_` are default-constructed. No path checks `name`. -/
def new (name innerVar : String) (collection filter : Option E) :
    Outcome (PredicateExpression E) :=
  Outcome.returned
    { name_ := name, innerVar_ := innerVar, collection_ := collection, filter_ := filter,
      originString_ := "", result_ := Value.empty }

/-- `kind()`: the tag given to the base class constructor. -/
def kind (_self : PredicateExpression E) : Kind := Kind.kPredicate

/-- `name()`. -/
def name (self : PredicateExpression E) : String := self.name_

/-- `innerVar()`. -/
def innerVar (self : PredicateExpression E) : String := self.innerVar_

/-- `collection()`: `collection_.get()`. -/
def collection (self : PredicateExpression E) : Option E := self.collection_

/-- `filter()`: `filter_.get()`. -/
def filter (self : PredicateExpression E) : Option E := self.filter_

/-- `setInnerVar(name)`: `innerVar_ = name;`. -/
def setInnerVar (self : PredicateExpression E) (name : String) : PredicateExpression E :=
  { self with innerVar_ := name }

/-- `setCollection(expr)`: `collection_.reset(expr);`. -/
def setCollection (self : PredicateExpression E) (expr : Option E) : PredicateExpression E :=
  { self with collection_ := expr }

/-- `setFilter(expr)`: `filter_.reset(expr);`. -/
def setFilter (self : PredicateExpression E) (expr : Option E) : PredicateExpression E :=
  { self with filter_ := expr }

/-- `setOriginString(s)`: `originString_ = s;`. -/
def setOriginString (self : PredicateExpression E) (s : String) : PredicateExpression E :=
  { self with originString_ := s }

/-- `hasOriginString()`: `!originString_.empty()`. -/
def hasOriginString (self : PredicateExpression E) : Bool :=
  !self.originString_.isEmpty

/-- `hasInnerVar()`: `!innerVar_.empty()`. -/
def hasInnerVar (self : PredicateExpression E) : Bool :=
  !self.innerVar_.isEmpty

/-- `hasFilter()`: `filter_ != nullptr`. -/
def hasFilter (self : PredicateExpression E) : Bool := self.filter_.isSome

/-- Modelled from the spec: the per-element predicate of section 4.2 step 4. The element is
bound to the inner variable in a child scope; the filter is evaluated there, or, when the
filter is absent, the truthiness of the bound element is taken. -/
def evalElement (evalExpr : ExpressionContext → E → Except EvaluationError Value)
    (ctx : ExpressionContext) (self : PredicateExpression E) (x : Value) :
    Except EvaluationError Bool :=
  match self.filter_ with
  | some f =>
    match evalExpr (ctx.withBinding self.innerVar_ x) f with
    | Except.ok v => Except.ok v.isTrueLike
    | Except.error e => Except.error e
  | none => Except.ok x.isTrueLike

/-- Modelled from the spec: the predicate results of all elements, in iteration order (a full
scan; the first failing element evaluation fails the whole scan). -/
def evalElements (evalExpr : ExpressionContext → E → Except EvaluationError Value)
    (ctx : ExpressionContext) (self : PredicateExpression E) :
    List Value → Except EvaluationError (List Bool)
  | [] => Except.ok []
  | x :: xs =>
    match evalElement evalExpr ctx self x with
    | Except.error e => Except.error e
    | Except.ok b =>
      match evalElements evalExpr ctx self xs with
      | Except.error e => Except.error e
      | Except.ok bs => Except.ok (b :: bs)

/-- Modelled from the spec: how each quantifier combines the per-element results: `all` when
every one is true, `any` when at least one is, `single` when exactly one is, `none` when no one
is. -/
def combine : QuantifierType → List Bool → Bool
  | QuantifierType.ALL, bs => bs.all id
  | QuantifierType.ANY, bs => bs.any id
  | QuantifierType.SINGLE, bs => (bs.filter id).length == 1
  | QuantifierType.NONE, bs => !bs.any id

/-- Modelled from the spec: `PredicateExpression::evalExists`, declared in the header and
defined in `PredicateExpression.cpp`, which is not among the sources. It does not iterate: it
evaluates the collection and reports whether the result is non-null and non-empty. -/
def evalExists (evalExpr : ExpressionContext → E → Except EvaluationError Value)
    (ctx : ExpressionContext) (self : PredicateExpression E) : Except EvaluationError Value :=
  match self.collection_ with
  | none => Except.error (EvaluationError.typeError "collection")
  | some c =>
    match evalExpr ctx c with
    | Except.error e => Except.error e
    | Except.ok v => Except.ok (Value.bool v.isPresent)

/-- Modelled from the spec: `PredicateExpression::eval`, declared in the header and defined in
`PredicateExpression.cpp`, which is not among the sources. Following section 4.2: the `exists`
form goes to `evalExists`; otherwise the name is resolved in `typeMap_`, the collection is
evaluated in the ambient context, a result that is not iterable is a `TypeError("collection")`,
and the per-element results are combined by the quantifier. `evalExpr` is the evaluation of a
child expression. -/
def eval (evalExpr : ExpressionContext → E → Except EvaluationError Value)
    (ctx : ExpressionContext) (self : PredicateExpression E) : Except EvaluationError Value :=
  if self.name_ = "exists" then evalExists evalExpr ctx self
  else
    match typeMap_.lookup self.name_ with
    | none => Except.error (EvaluationError.constructionError self.name_)
    | some t =>
      match self.collection_ with
      | none => Except.error (EvaluationError.typeError "collection")
      | some c =>
        match evalExpr ctx c with
        | Except.error e => Except.error e
        | Except.ok v =>
          match v.asIterable with
          | none => Except.error (EvaluationError.typeError "collection")
          | some xs =>
            match evalElements evalExpr ctx self xs with
            | Except.error e => Except.error e
            | Except.ok bs => Except.ok (Value.bool (combine t bs))

end PredicateExpression

/-! ## ReduceExpression.h -/

/-- The members of `ReduceExpression`; children are owning pointers to `Expression`
(type `E`). -/
structure ReduceExpression (E : Type) where
  accumulator_ : String
  initial_ : Option E
  innerVar_ : String
  collection_ : Option E
  mapping_ : Option E
  originString_ : String
  result_ : Value

namespace ReduceExpression

variable {E : Type}

/-- The constructor `ReduceExpression(accumulator, initial, innerVar, collection, mapping)`
(defaults `""`, `nullptr`, `""`, `nullptr`, `nullptr`). `originString_` and `result_` are
default-constructed. -/
def new (accumulator : String) (initial : Option E) (innerVar : String)
    (collection mapping : Option E) : Outcome (ReduceExpression E) :=
  Outcome.returned
    { accumulator_ := accumulator, initial_ := initial, innerVar_ := innerVar,
      collection_ := collection, mapping_ := mapping,
      originString_ := "", result_ := Value.empty }

/-- `kind()`: the tag given to the base class constructor. -/
def kind (_self : ReduceExpression E) : Kind := Kind.kReduce

/-- `accumulator()`. -/
def accumulator (self : ReduceExpression E) : String := self.accumulator_

/-- `initial()`: `initial_.get()`. -/
def initial (self : ReduceExpression E) : Option E := self.initial_

/-- `innerVar()`. -/
def innerVar (self : ReduceExpression E) : String := self.innerVar_

/-- `collection()`: `collection_.get()`. -/
def collection (self : ReduceExpression E) : Option E := self.collection_

/-- `mapping()`: `mapping_.get()`. -/
def mapping (self : ReduceExpression E) : Option E := self.mapping_

/-- `setAccumulator(name)`: `accumulator_ = name;`. -/
def setAccumulator (self : ReduceExpression E) (name : String) : ReduceExpression E :=
  { self with accumulator_ := name }

/-- `setInitial(expr)`: `initial_.reset(expr);`. -/
def setInitial (self : ReduceExpression E) (expr : Option E) : ReduceExpression E :=
  { self with initial_ := expr }

/-- `setInnerVar(name)`: `innerVar_ = name;`. -/
def setInnerVar (self : ReduceExpression E) (name : String) : ReduceExpression E :=
  { self with innerVar_ := name }

/-- `setCollection(expr)`: `collection_.reset(expr);`. -/
def setCollection (self : ReduceExpression E) (expr : Option E) : ReduceExpression E :=
  { self with collection_ := expr }

/-- `setMapping(expr)`: `mapping_.reset(expr);`. -/
def setMapping (self : ReduceExpression E) (expr : Option E) : ReduceExpression E :=
  { self with mapping_ := expr }

/-- `setOriginString(s)`: `originString_ = s;`. -/
def setOriginString (self : ReduceExpression E) (s : String) : ReduceExpression E :=
  { self with originString_ := s }

/-- `hasOriginString()`: `!originString_.empty()`. -/
def hasOriginString (self : ReduceExpression E) : Bool :=
  !self.originString_.isEmpty

end ReduceExpression

/-! ## Response.h -/

/-- The enumeration `ErrorCode`. -/
inductive ErrorCode where
  | SUCCEEDED
  | E_DISCONNECTED
  | E_FAIL_TO_CONNECT
  | E_RPC_FAILURE
  | E_BAD_USERNAME_PASSWORD
  | E_SESSION_INVALID
  | E_SESSION_TIMEOUT
  | E_SYNTAX_ERROR
  | E_EXECUTION_ERROR
  | E_STATEMENT_EMPTY
  | E_USER_NOT_FOUND
  | E_BAD_PERMISSION
  | E_SEMANTIC_ERROR
  | E_TOO_MANY_CONNECTIONS
  | E_PARTIAL_SUCCEEDED
  deriving DecidableEq, Repr

/-- The numeric value of each `ErrorCode` enumerator. -/
def ErrorCode.toInt : ErrorCode → Int
  | .SUCCEEDED => 0
  | .E_DISCONNECTED => -1
  | .E_FAIL_TO_CONNECT => -2
  | .E_RPC_FAILURE => -3
  | .E_BAD_USERNAME_PASSWORD => -1001
  | .E_SESSION_INVALID => -1002
  | .E_SESSION_TIMEOUT => -1003
  | .E_SYNTAX_ERROR => -1004
  | .E_EXECUTION_ERROR => -1005
  | .E_STATEMENT_EMPTY => -1006
  | .E_USER_NOT_FOUND => -18
  | .E_BAD_PERMISSION => -1008
  | .E_SEMANTIC_ERROR => -1009
  | .E_TOO_MANY_CONNECTIONS => -1010
  | .E_PARTIAL_SUCCEEDED => -1011

/-- A raw pointer `const T*`: null, or the address of an object together with the object
stored there. An address is a pair: the address of the record that owns the object, and the
position of the owning member in that record. -/
inductive Pointer (T : Type) where
  | null
  | to (addr : Nat × Nat) (pointee : T)

/-- The address held by a pointer, `none` for the null pointer. -/
def Pointer.addr {T : Type} : Pointer T → Option (Nat × Nat)
  | .null => none
  | .to a _ => some a

/-- The `get()` of the `unique_ptr` member at position `slot` of the record at address `owner`:
null when the member is empty, otherwise a pointer to the owned object. A `unique_ptr` owns its
pointee exclusively, so the pointee is identified by the owning record and member: members of
two distinct records never point to the same object, and the same member of the same record
always does. -/
def uniquePtrGet {T : Type} (owner slot : Nat) (m : Option T) : Pointer T :=
  match m with
  | none => Pointer.null
  | some v => Pointer.to (owner, slot) v

/-- `checkPointer(lhs, rhs)`:

```
if (lhs == rhs) { return true; }
else if (lhs != nullptr && rhs != nullptr) { return *lhs == *rhs; }
else { return false; }
```

`lhs == rhs` compares the two pointers themselves: it holds when both are null or both hold the
same address, and then the pointees are not compared. `eq` is the `operator==` of the pointee
type. -/
def checkPointer {T : Type} (eq : T → T → Bool) (lhs rhs : Pointer T) : Bool :=
  if lhs.addr = rhs.addr then true
  else
    match lhs, rhs with
    | .to _ l, .to _ r => eq l r
    | _, _ => false

/-- The `operator==` of `std::vector<T>`: equal sizes and pairwise `==` elements. -/
def vectorEq {T : Type} (eq : T → T → Bool) : List T → List T → Bool
  | [], [] => true
  | x :: xs, y :: ys => eq x y && vectorEq eq xs ys
  | _, _ => false

/-- The `operator==` of `std::unordered_map<K, V>`: equal sizes, and every entry of the left map
has its key in the right map with an `==` value. -/
def unorderedMapEq {K V : Type} [BEq K] [BEq V] (lhs rhs : List (K × V)) : Bool :=
  lhs.length == rhs.length &&
    lhs.all (fun kv => match rhs.lookup kv.1 with
      | some v => kv.2 == v
      | none => false)

/-- The record `AuthResponse` with its default member initialisers. -/
structure AuthResponse where
  errorCode : ErrorCode := ErrorCode.SUCCEEDED
  sessionId : Option Int := none
  errorMsg : Option String := none
  deriving DecidableEq, Repr

namespace AuthResponse

/-- `__clear()`: `errorCode = ErrorCode::SUCCEEDED; sessionId = nullptr; errorMsg = nullptr;`. -/
def __clear (self : AuthResponse) : AuthResponse :=
  { self with errorCode := ErrorCode.SUCCEEDED, sessionId := none, errorMsg := none }

/-- `clear()`: `__clear();`. -/
def clear (self : AuthResponse) : AuthResponse := self.__clear

/-- `operator==(const AuthResponse &rhs)`; `selfAddr` and `rhsAddr` are the addresses of
`*this` and of `rhs`. -/
def operatorEq (selfAddr rhsAddr : Nat) (self rhs : AuthResponse) : Bool :=
  if self.errorCode ≠ rhs.errorCode then false
  else if !checkPointer (fun x y => x == y)
      (uniquePtrGet selfAddr 1 self.sessionId) (uniquePtrGet rhsAddr 1 rhs.sessionId) then false
  else checkPointer (fun x y => x == y)
      (uniquePtrGet selfAddr 2 self.errorMsg) (uniquePtrGet rhsAddr 2 rhs.errorMsg)

end AuthResponse

/-- The record `ProfilingStats` with its default member initialisers. -/
structure ProfilingStats where
  rows : Int := 0
  execDurationInUs : Int := 0
  totalDurationInUs : Int := 0
  otherStats : Option (List (String × String)) := none
  deriving DecidableEq, Repr

namespace ProfilingStats

/-- `__clear()`: `rows = 0; execDurationInUs = 0; totalDurationInUs = 0; otherStats = nullptr;`. -/
def __clear (self : ProfilingStats) : ProfilingStats :=
  { self with rows := 0, execDurationInUs := 0, totalDurationInUs := 0, otherStats := none }

/-- `clear()`: `__clear();`. -/
def clear (self : ProfilingStats) : ProfilingStats := self.__clear

/-- `operator==(const ProfilingStats &rhs)`; `selfAddr` and `rhsAddr` are the addresses of
`*this` and of `rhs`. -/
def operatorEq (selfAddr rhsAddr : Nat) (self rhs : ProfilingStats) : Bool :=
  if self.rows ≠ rhs.rows then false
  else if self.execDurationInUs ≠ rhs.execDurationInUs then false
  else if self.totalDurationInUs ≠ rhs.totalDurationInUs then false
  else checkPointer unorderedMapEq
      (uniquePtrGet selfAddr 3 self.otherStats) (uniquePtrGet rhsAddr 3 rhs.otherStats)

end ProfilingStats

/-- The record `PlanNodeBranchInfo` with its default member initialisers. -/
structure PlanNodeBranchInfo where
  isDoBranch : Bool := false
  conditionNodeId : Int := -1
  deriving DecidableEq, Repr

namespace PlanNodeBranchInfo

/-- `__clear()`: `isDoBranch = false; conditionNodeId = -1;`. -/
def __clear (self : PlanNodeBranchInfo) : PlanNodeBranchInfo :=
  { self with isDoBranch := false, conditionNodeId := -1 }

/-- `clear()`: `__clear();`. -/
def clear (self : PlanNodeBranchInfo) : PlanNodeBranchInfo := self.__clear

/-- `operator==(const PlanNodeBranchInfo &rhs)`. -/
def operatorEq (self rhs : PlanNodeBranchInfo) : Bool :=
  self.isDoBranch == rhs.isDoBranch && self.conditionNodeId == rhs.conditionNodeId

end PlanNodeBranchInfo

/-- The record `Pair`; both strings are default-constructed empty. -/
structure Pair where
  key : String := ""
  value : String := ""
  deriving DecidableEq, Repr

namespace Pair

/-- `__clear()`: `key.clear(); value.clear();`. -/
def __clear (self : Pair) : Pair :=
  { self with key := "", value := "" }

/-- `clear()`: `__clear();`. -/
def clear (self : Pair) : Pair := self.__clear

/-- `operator==(const Pair &rhs)`. -/
def operatorEq (self rhs : Pair) : Bool :=
  self.key == rhs.key && self.value == rhs.value

end Pair

/-- The record `PlanNodeDescription` with its default member initialisers. -/
structure PlanNodeDescription where
  name : String := ""
  id : Int := -1
  outputVar : String := ""
  description : Option (List Pair) := none
  profiles : Option (List ProfilingStats) := none
  branchInfo : Option PlanNodeBranchInfo := none
  dependencies : Option (List Int) := none
  deriving DecidableEq, Repr

namespace PlanNodeDescription

/-- `__clear()`: `name.clear(); id = -1; outputVar.clear(); description = nullptr;
profiles = nullptr; branchInfo = nullptr; dependencies = nullptr;`. -/
def __clear (self : PlanNodeDescription) : PlanNodeDescription :=
  { self with name := "", id := -1, outputVar := "", description := none, profiles := none,
              branchInfo := none, dependencies := none }

/-- `clear()`: `__clear();`. -/
def clear (self : PlanNodeDescription) : PlanNodeDescription := self.__clear

end PlanNodeDescription

/-- The record `PlanDescription` with its default member initialisers. -/
structure PlanDescription where
  planNodeDescs : List PlanNodeDescription := []
  nodeIndexMap : List (Int × Int) := []
  format : String := ""
  optimize_time_in_us : Int := 0
  deriving DecidableEq, Repr

namespace PlanDescription

/-- `__clear()`: `planNodeDescs.clear(); nodeIndexMap.clear(); format.clear();
optimize_time_in_us = 0;`. -/
def __clear (self : PlanDescription) : PlanDescription :=
  { self with planNodeDescs := [], nodeIndexMap := [], format := "", optimize_time_in_us := 0 }

/-- `clear()`: `__clear();`. -/
def clear (self : PlanDescription) : PlanDescription := self.__clear

/-- `operator==(const PlanDescription &rhs)`:

```
return planNodeDescs == rhs.planNodeDescs &&
    nodeIndexMap == rhs.nodeIndexMap &&
    format == rhs.format;
```

`nodeEq` is `PlanNodeDescription::operator==`, which the header declares without defining. -/
def operatorEq (nodeEq : PlanNodeDescription → PlanNodeDescription → Bool)
    (self rhs : PlanDescription) : Bool :=
  vectorEq nodeEq self.planNodeDescs rhs.planNodeDescs &&
    unorderedMapEq self.nodeIndexMap rhs.nodeIndexMap &&
    self.format == rhs.format

end PlanDescription

/-- The record `ExecutionResponse` with its default member initialisers; `DataSet` is the type
`nebula::DataSet` of `common/datatypes/DataSet.h`. -/
structure ExecutionResponse (DataSet : Type) where
  errorCode : ErrorCode := ErrorCode.SUCCEEDED
  latencyInUs : Int := 0
  data : Option DataSet := none
  spaceName : Option String := none
  errorMsg : Option String := none
  planDesc : Option PlanDescription := none
  comment : Option String := none

namespace ExecutionResponse

variable {DataSet : Type}

/-- `__clear()`: `errorCode = ErrorCode::SUCCEEDED; latencyInUs = 0; data.reset();
spaceName.reset(); errorMsg.reset(); planDesc.reset(); comment.reset();`. -/
def __clear (self : ExecutionResponse DataSet) : ExecutionResponse DataSet :=
  { self with errorCode := ErrorCode.SUCCEEDED, latencyInUs := 0, data := none,
              spaceName := none, errorMsg := none, planDesc := none, comment := none }

/-- `clear()`: `__clear();`. -/
def clear (self : ExecutionResponse DataSet) : ExecutionResponse DataSet := self.__clear

/-- `operator==(const ExecutionResponse &rhs)`: the two scalar members are compared first, then
the five optional members through `checkPointer`, returning `false` at the first difference.
`dataEq` is the `operator==` of `DataSet` and `nodeEq` the one of `PlanNodeDescription`;
`selfAddr` and `rhsAddr` are the addresses of `*this` and of `rhs`. -/
def operatorEq (dataEq : DataSet → DataSet → Bool)
    (nodeEq : PlanNodeDescription → PlanNodeDescription → Bool)
    (selfAddr rhsAddr : Nat) (self rhs : ExecutionResponse DataSet) : Bool :=
  if self.errorCode ≠ rhs.errorCode then false
  else if self.latencyInUs ≠ rhs.latencyInUs then false
  else if !checkPointer dataEq
      (uniquePtrGet selfAddr 2 self.data) (uniquePtrGet rhsAddr 2 rhs.data) then false
  else if !checkPointer (fun x y => x == y)
      (uniquePtrGet selfAddr 3 self.spaceName) (uniquePtrGet rhsAddr 3 rhs.spaceName) then false
  else if !checkPointer (fun x y => x == y)
      (uniquePtrGet selfAddr 4 self.errorMsg) (uniquePtrGet rhsAddr 4 rhs.errorMsg) then false
  else if !checkPointer (PlanDescription.operatorEq nodeEq)
      (uniquePtrGet selfAddr 5 self.planDesc) (uniquePtrGet rhsAddr 5 rhs.planDesc) then false
  else if !checkPointer (fun x y => x == y)
      (uniquePtrGet selfAddr 6 self.comment) (uniquePtrGet rhsAddr 6 rhs.comment) then false
  else true

end ExecutionResponse

/-- The relation the specification states between two optional fields: absent in both, or
present in both with contents related by `R`. -/
def OptionalAgree {T : Type} (R : T → T → Prop) (x y : Option T) : Prop :=
  (x = none ∧ y = none) ∨ ∃ u v, x = some u ∧ y = some v ∧ R u v

/-! ## Shared lemmas -/

theorem not_isEmpty_eq_true_iff (s : String) : (!s.isEmpty) = true ↔ s ≠ "" := by
  rw [Bool.not_eq_true', ← Bool.not_eq_true, String.isEmpty_iff]

/-! ## LabelAttributeExpression -/

/-- C1: for every label-attribute node, context, encoder and decoder, `eval`, `writeTo` and
`resetFrom` each end on the fatal path with their fixed message; none of them returns a value
and none of them leaves through a recoverable error. -/
theorem labelAttribute_eval_writeTo_resetFrom_fatal {L Ctx V Encoder Decoder : Type}
    (n : LabelAttributeExpression L) (ctx : Ctx) (encoder : Encoder) (decoder : Decoder) :
    ((n.eval ctx : Outcome V) = Outcome.fatal "LabelAttributeExpression has to be rewritten" ∧
      n.writeTo encoder = Outcome.fatal "LabelAttributeExpression cannot be encoded" ∧
      n.resetFrom decoder = Outcome.fatal "LabelAttributeExpression cannot be decoded") ∧
    ((∀ v : V, (n.eval ctx : Outcome V) ≠ Outcome.returned v) ∧
      (∀ u : Unit, n.writeTo encoder ≠ Outcome.returned u) ∧
      (∀ u : Unit, n.resetFrom decoder ≠ Outcome.returned u)) ∧
    ((∀ what : String, (n.eval ctx : Outcome V) ≠ Outcome.thrown what) ∧
      (∀ what : String, n.writeTo encoder ≠ Outcome.thrown what) ∧
      (∀ what : String, n.resetFrom decoder ≠ Outcome.thrown what)) := by
  refine ⟨⟨rfl, rfl, rfl⟩, ⟨?_, ?_, ?_⟩, ⟨?_, ?_, ?_⟩⟩ <;> intro x h <;>
    simp [LabelAttributeExpression.eval, LabelAttributeExpression.writeTo,
      LabelAttributeExpression.resetFrom] at h

/-- C5: for a label-attribute node `n` with both children present and any expression `e`,
`n == e` returns false when the kind of `e` is not `kLabelAttribute`; when `e` is a
label-attribute node with both children present, `n == e` returns the conjunction of
left-with-left and right-with-right equality, so it is true exactly when both hold. -/
theorem labelAttribute_operatorEq_structural {L : Type} [BEq L]
    (n : LabelAttributeExpression L) (l r : L) (hl : n.lhs_ = some l) (hr : n.rhs_ = some r)
    (e : Expression L) :
    (e.kind ≠ Kind.kLabelAttribute → n.operatorEq e = Outcome.returned false) ∧
    (∀ (m : LabelAttributeExpression L) (l2 r2 : L),
      e = Expression.labelAttribute m → m.lhs_ = some l2 → m.rhs_ = some r2 →
        n.operatorEq e = Outcome.returned (l == l2 && r == r2) ∧
        (n.operatorEq e = Outcome.returned true ↔ (l == l2) = true ∧ (r == r2) = true)) := by
  constructor
  · intro hk
    simp [LabelAttributeExpression.operatorEq, LabelAttributeExpression.kind, hk]
  · intro m l2 r2 he hl2 hr2
    subst he
    have key : n.operatorEq (Expression.labelAttribute m)
        = Outcome.returned (l == l2 && r == r2) := by
      simp only [LabelAttributeExpression.operatorEq, LabelAttributeExpression.kind,
        Expression.kind, hl, hr, hl2, hr2]
      cases l == l2 <;> simp
    refine ⟨key, ?_⟩
    rw [key]
    simp

/-- C5 witness: the node `a.b` compared with a reduce node and with the node `a.c`. -/
theorem labelAttribute_operatorEq_structural_witness :
    ((⟨some "a", some "b"⟩ : LabelAttributeExpression String).lhs_ = some "a" ∧
      (⟨some "a", some "b"⟩ : LabelAttributeExpression String).rhs_ = some "b") ∧
    (⟨some "a", some "b"⟩ : LabelAttributeExpression String).operatorEq
      (Expression.node Kind.kReduce (by decide)) = Outcome.returned false ∧
    (⟨some "a", some "b"⟩ : LabelAttributeExpression String).operatorEq
      (Expression.labelAttribute ⟨some "a", some "c"⟩) = Outcome.returned ("a" == "a" && "b" == "c") :=
  ⟨⟨rfl, rfl⟩,
    (labelAttribute_operatorEq_structural ⟨some "a", some "b"⟩ "a" "b" rfl rfl
      (Expression.node Kind.kReduce (by decide))).1 (by decide),
    ((labelAttribute_operatorEq_structural ⟨some "a", some "b"⟩ "a" "b" rfl rfl
      (Expression.labelAttribute ⟨some "a", some "c"⟩)).2 ⟨some "a", some "c"⟩ "a" "c"
        rfl rfl rfl).1⟩

/-- C8: the node built by the constructor with its default arguments has both children absent,
and comparing it with itself dereferences the absent left child: the comparison does not
return a boolean. The same happens as soon as a child needed by the comparison is absent on
either side. -/
theorem labelAttribute_operatorEq_default_undefined :
    LabelAttributeExpression.new (none : Option String) none = Outcome.returned ⟨none, none⟩ ∧
    (⟨none, none⟩ : LabelAttributeExpression String).operatorEq
      (Expression.labelAttribute ⟨none, none⟩) = Outcome.undefined ∧
    (⟨some "a", none⟩ : LabelAttributeExpression String).operatorEq
      (Expression.labelAttribute ⟨some "a", none⟩) = Outcome.undefined ∧
    (⟨some "a", some "b"⟩ : LabelAttributeExpression String).operatorEq
      (Expression.labelAttribute ⟨none, none⟩) = Outcome.undefined := by
  refine ⟨rfl, ?_, ?_, ?_⟩ <;>
    simp [LabelAttributeExpression.operatorEq, LabelAttributeExpression.kind, Expression.kind]

/-! ## PredicateExpression -/

/-- C4 counterexample: `foo` and the empty default name are not known quantifier names, yet the
constructor returns a node for each of them. -/
theorem predicate_new_unknown_name_returns :
    PredicateExpression.isKnownName "foo" = false ∧
    PredicateExpression.isKnownName "" = false ∧
    (PredicateExpression.new "foo" "x" (none : Option Unit) none =
      Outcome.returned
        { name_ := "foo", innerVar_ := "x", collection_ := none, filter_ := none,
          originString_ := "", result_ := Value.empty }) ∧
    (PredicateExpression.new "" "" (none : Option Unit) none =
      Outcome.returned
        { name_ := "", innerVar_ := "", collection_ := none, filter_ := none,
          originString_ := "", result_ := Value.empty }) := by
  refine ⟨by decide, by decide, rfl, rfl⟩

/-- C4 as amended: the constructor does not validate the name. For every name, known quantifier
or not, and every other argument, it returns a node whose accessors give back the arguments;
it never leaves through an error. -/
theorem predicate_new_accepts_every_name {E : Type} (name innerVar : String)
    (collection filter : Option E) :
    (∃ n : PredicateExpression E,
      PredicateExpression.new name innerVar collection filter = Outcome.returned n ∧
      n.name = name ∧ n.innerVar = innerVar ∧ n.collection = collection ∧
      n.filter = filter) ∧
    (∀ what : String,
      PredicateExpression.new name innerVar collection filter ≠ Outcome.thrown what) ∧
    (∀ msg : String,
      PredicateExpression.new name innerVar collection filter ≠ Outcome.fatal msg) := by
  refine ⟨⟨_, rfl, rfl, rfl, rfl, rfl⟩, ?_, ?_⟩ <;> intro x h <;>
    simp [PredicateExpression.new] at h

/-- C7: when the collection of a predicate node evaluates to the empty list, `eval` returns
true for the names `all` and `none` and false for the names `any` and `single`, whatever the
filter and the context. -/
theorem predicate_eval_empty_collection {E : Type}
    (evalExpr : ExpressionContext → E → Except EvaluationError Value)
    (ctx : ExpressionContext) (p : PredicateExpression E) (c : E)
    (hc : p.collection_ = some c) (hv : evalExpr ctx c = Except.ok (Value.list [])) :
    (p.name_ = "all" → p.eval evalExpr ctx = Except.ok (Value.bool true)) ∧
    (p.name_ = "none" → p.eval evalExpr ctx = Except.ok (Value.bool true)) ∧
    (p.name_ = "any" → p.eval evalExpr ctx = Except.ok (Value.bool false)) ∧
    (p.name_ = "single" → p.eval evalExpr ctx = Except.ok (Value.bool false)) := by
  refine ⟨?_, ?_, ?_, ?_⟩ <;> intro hn <;>
    simp [PredicateExpression.eval, PredicateExpression.typeMap_, List.lookup, hn, hc, hv,
      Value.asIterable, PredicateExpression.evalElements, PredicateExpression.combine]

/-- C7 witness: the four quantifiers over a collection that evaluates to the empty list, with a
filter present. -/
theorem predicate_eval_empty_collection_witness :
    (({ name_ := "single", innerVar_ := "x", collection_ := some 0, filter_ := some 1,
        originString_ := "", result_ := Value.empty } : PredicateExpression Nat).collection_
      = some 0 ∧
     (fun (_ : ExpressionContext) (_ : Nat) =>
        (Except.ok (Value.list []) : Except EvaluationError Value))
          { vars := fun _ => none } 0 = Except.ok (Value.list [])) ∧
    PredicateExpression.eval
      (fun (_ : ExpressionContext) (_ : Nat) =>
        (Except.ok (Value.list []) : Except EvaluationError Value))
      { vars := fun _ => none }
      { name_ := "single", innerVar_ := "x", collection_ := some 0, filter_ := some 1,
        originString_ := "", result_ := Value.empty } = Except.ok (Value.bool false) :=
  ⟨⟨rfl, rfl⟩,
    (predicate_eval_empty_collection
      (fun (_ : ExpressionContext) (_ : Nat) =>
        (Except.ok (Value.list []) : Except EvaluationError Value))
      { vars := fun _ => none }
      { name_ := "single", innerVar_ := "x", collection_ := some 0, filter_ := some 1,
        originString_ := "", result_ := Value.empty } 0 rfl rfl).2.2.2 rfl⟩

/-! ## Origin string and setters of the comprehension nodes -/

/-- C9: on each of the three comprehension nodes, a freshly constructed node has no origin
string and capturing the empty string leaves it as it was; for every node and every string
`s`, after `setOriginString s` the node has an origin string exactly when `s` is non-empty. -/
theorem originString_captured_iff_nonempty {E : Type} :
    ((∀ (innerVar : String) (collection filter mapping : Option E),
        ∃ n, ListComprehensionExpression.new innerVar collection filter mapping
            = Outcome.returned n ∧
          n.hasOriginString = false ∧ n.setOriginString "" = n) ∧
      (∀ (n : ListComprehensionExpression E) (s : String),
        (n.setOriginString s).hasOriginString = true ↔ s ≠ "")) ∧
    ((∀ (name innerVar : String) (collection filter : Option E),
        ∃ n, PredicateExpression.new name innerVar collection filter = Outcome.returned n ∧
          n.hasOriginString = false ∧ n.setOriginString "" = n) ∧
      (∀ (n : PredicateExpression E) (s : String),
        (n.setOriginString s).hasOriginString = true ↔ s ≠ "")) ∧
    ((∀ (accumulator : String) (initial : Option E) (innerVar : String)
          (collection mapping : Option E),
        ∃ n, ReduceExpression.new accumulator initial innerVar collection mapping
            = Outcome.returned n ∧
          n.hasOriginString = false ∧ n.setOriginString "" = n) ∧
      (∀ (n : ReduceExpression E) (s : String),
        (n.setOriginString s).hasOriginString = true ↔ s ≠ "")) := by
  refine ⟨⟨?_, ?_⟩, ⟨?_, ?_⟩, ⟨?_, ?_⟩⟩
  · intro innerVar collection filter mapping
    exact ⟨_, rfl, rfl, rfl⟩
  · intro n s
    exact not_isEmpty_eq_true_iff s
  · intro name innerVar collection filter
    exact ⟨_, rfl, rfl, rfl⟩
  · intro n s
    exact not_isEmpty_eq_true_iff s
  · intro accumulator initial innerVar collection mapping
    exact ⟨_, rfl, rfl, rfl⟩
  · intro n s
    exact not_isEmpty_eq_true_iff s

/-- C10: each of the five setters of a reduce node makes its own accessor return the new
argument and leaves the other four of accumulator, initial, innerVar, collection and mapping,
as well as the captured origin string and `hasOriginString`, as they were. -/
theorem reduce_setters_change_one_field {E : Type} (n : ReduceExpression E)
    (name : String) (expr : Option E) :
    ((n.setAccumulator name).accumulator = name ∧
      (n.setAccumulator name).initial = n.initial ∧
      (n.setAccumulator name).innerVar = n.innerVar ∧
      (n.setAccumulator name).collection = n.collection ∧
      (n.setAccumulator name).mapping = n.mapping ∧
      (n.setAccumulator name).originString_ = n.originString_ ∧
      (n.setAccumulator name).hasOriginString = n.hasOriginString) ∧
    ((n.setInitial expr).initial = expr ∧
      (n.setInitial expr).accumulator = n.accumulator ∧
      (n.setInitial expr).innerVar = n.innerVar ∧
      (n.setInitial expr).collection = n.collection ∧
      (n.setInitial expr).mapping = n.mapping ∧
      (n.setInitial expr).originString_ = n.originString_ ∧
      (n.setInitial expr).hasOriginString = n.hasOriginString) ∧
    ((n.setInnerVar name).innerVar = name ∧
      (n.setInnerVar name).accumulator = n.accumulator ∧
      (n.setInnerVar name).initial = n.initial ∧
      (n.setInnerVar name).collection = n.collection ∧
      (n.setInnerVar name).mapping = n.mapping ∧
      (n.setInnerVar name).originString_ = n.originString_ ∧
      (n.setInnerVar name).hasOriginString = n.hasOriginString) ∧
    ((n.setCollection expr).collection = expr ∧
      (n.setCollection expr).accumulator = n.accumulator ∧
      (n.setCollection expr).initial = n.initial ∧
      (n.setCollection expr).innerVar = n.innerVar ∧
      (n.setCollection expr).mapping = n.mapping ∧
      (n.setCollection expr).originString_ = n.originString_ ∧
      (n.setCollection expr).hasOriginString = n.hasOriginString) ∧
    ((n.setMapping expr).mapping = expr ∧
      (n.setMapping expr).accumulator = n.accumulator ∧
      (n.setMapping expr).initial = n.initial ∧
      (n.setMapping expr).innerVar = n.innerVar ∧
      (n.setMapping expr).collection = n.collection ∧
      (n.setMapping expr).originString_ = n.originString_ ∧
      (n.setMapping expr).hasOriginString = n.hasOriginString) := by
  refine ⟨⟨rfl, rfl, rfl, rfl, rfl, rfl, rfl⟩, ⟨rfl, rfl, rfl, rfl, rfl, rfl, rfl⟩,
    ⟨rfl, rfl, rfl, rfl, rfl, rfl, rfl⟩, ⟨rfl, rfl, rfl, rfl, rfl, rfl, rfl⟩,
    ⟨rfl, rfl, rfl, rfl, rfl, rfl, rfl⟩⟩

/-! ## Response records -/

/-- C2: two plan descriptions that differ only in `optimize_time_in_us` (0 against 1) compare
equal, whatever the comparison of plan node descriptions is: `operator==` does not read the
fourth field. -/
theorem planDescription_operatorEq_ignores_optimize_time
    (nodeEq : PlanNodeDescription → PlanNodeDescription → Bool) :
    PlanDescription.operatorEq nodeEq
      { planNodeDescs := [], nodeIndexMap := [], format := "", optimize_time_in_us := 0 }
      { planNodeDescs := [], nodeIndexMap := [], format := "", optimize_time_in_us := 1 }
      = true ∧
    ({ planNodeDescs := [], nodeIndexMap := [], format := "", optimize_time_in_us := 0 }
        : PlanDescription).optimize_time_in_us ≠
      ({ planNodeDescs := [], nodeIndexMap := [], format := "", optimize_time_in_us := 1 }
        : PlanDescription).optimize_time_in_us := by
  constructor
  · simp [PlanDescription.operatorEq, vectorEq, unorderedMapEq]
  · decide

/-- C3: for each of the seven response records, `clear()` yields the default-constructed
record, whose fields are: error code `SUCCEEDED`, counters 0, `id` and `conditionNodeId` -1,
`isDoBranch` false, strings and containers empty, optional fields absent. -/
theorem clear_resets_to_default {DataSet : Type} :
    (∀ r : AuthResponse, r.clear = {} ∧ r.clear = ⟨ErrorCode.SUCCEEDED, none, none⟩) ∧
    (∀ r : ProfilingStats, r.clear = {} ∧ r.clear = ⟨0, 0, 0, none⟩) ∧
    (∀ r : PlanNodeBranchInfo, r.clear = {} ∧ r.clear = ⟨false, -1⟩) ∧
    (∀ r : Pair, r.clear = {} ∧ r.clear = ⟨"", ""⟩) ∧
    (∀ r : PlanNodeDescription,
      r.clear = {} ∧ r.clear = ⟨"", -1, "", none, none, none, none⟩) ∧
    (∀ r : PlanDescription, r.clear = {} ∧ r.clear = ⟨[], [], "", 0⟩) ∧
    (∀ r : ExecutionResponse DataSet,
      r.clear = {} ∧ r.clear = ⟨ErrorCode.SUCCEEDED, 0, none, none, none, none, none⟩) := by
  refine ⟨?_, ?_, ?_, ?_, ?_, ?_, ?_⟩ <;> intro r <;> exact ⟨rfl, rfl⟩

/-- C6: two execution responses held in two distinct objects (addresses 0 and 1), equal in
every field except that their plan descriptions, present in both, differ in
`optimize_time_in_us` (0 against 1), compare equal, although `planDesc` is neither absent in
both nor present in both with equal contents. `checkPointer` itself does tell absent from
present; the contents of `planDesc` are compared by `PlanDescription::operator==`, which does
not read `optimize_time_in_us`. -/
theorem executionResponse_operatorEq_planDesc_contents_differ {DataSet : Type}
    (dataEq : DataSet → DataSet → Bool)
    (nodeEq : PlanNodeDescription → PlanNodeDescription → Bool) :
    ExecutionResponse.operatorEq dataEq nodeEq 0 1
      { errorCode := ErrorCode.SUCCEEDED, latencyInUs := 0, data := none, spaceName := none,
        errorMsg := none, comment := none,
        planDesc := some { planNodeDescs := [], nodeIndexMap := [], format := "",
                           optimize_time_in_us := 0 } }
      { errorCode := ErrorCode.SUCCEEDED, latencyInUs := 0, data := none, spaceName := none,
        errorMsg := none, comment := none,
        planDesc := some { planNodeDescs := [], nodeIndexMap := [], format := "",
                           optimize_time_in_us := 1 } }
      = true ∧
    ¬ OptionalAgree (fun u v => u = v)
      (some { planNodeDescs := [], nodeIndexMap := [], format := "",
              optimize_time_in_us := 0 } : Option PlanDescription)
      (some { planNodeDescs := [], nodeIndexMap := [], format := "",
              optimize_time_in_us := 1 }) := by
  constructor
  · simp [ExecutionResponse.operatorEq, checkPointer, uniquePtrGet, Pointer.addr,
      PlanDescription.operatorEq, vectorEq, unorderedMapEq]
  · simp [OptionalAgree]

end nebula
